import Mathlib

/-!
Verification of `openpi_client/websocket_client_policy.py` (class
`WebsocketClientPolicy`) against its natural-language specification.

The Python class is embedded shallowly:
* a websocket message is either a binary frame (a byte list) or a text frame;
* the external codec (`self._packer.pack` / `msgpack_numpy.unpackb`) is an
  abstract pair of functions over an abstract payload type `α`;
* the behaviour of the transport during one `recv` is an explicit value
  (`RecvOutcome`): either a message arrives, or the receive window expires;
* the behaviour of the transport during construction is an explicit list of
  per-attempt outcomes (`Attempt`): the `try` body around
  `websockets.sync.client.connect` + `conn.recv()` + `unpackb` either raises
  `ConnectionRefusedError`, raises some other error, or yields a connection
  and the metadata bytes;
* durations (the retry delay, the receive timeout) are abstract time units
  modelled as `Nat`.
-/

namespace OpenpiClient

/-- A websocket message: a binary frame carrying bytes, or a text frame. -/
inductive Msg : Type
  | binary (b : List Nat)
  | text (s : String)
  deriving DecidableEq, Repr

/-- What the transport does during one `recv` call of `infer`: either a
message arrives within the allowed window, or no message arrives before the
given timeout expires. -/
inductive RecvOutcome : Type
  | msg (m : Msg)
  | timedOut
  deriving DecidableEq, Repr

/-- Outcome of one `try` body of `_wait_for_server` (the body covers
`connect`, the metadata `recv` and `unpackb`): `ConnectionRefusedError`
(the only caught exception class), any other exception (carried as its
message), or success yielding a connection identity and the raw metadata
bytes received right after connecting. -/
inductive Attempt : Type
  | refused
  | otherFailure (e : String)
  | success (connId : Nat) (metadataBytes : List Nat)
  deriving DecidableEq, Repr

/-- The websocket connection handle `self._ws`: an identity plus whether it
has been closed. -/
structure Conn : Type where
  id : Nat
  closed : Bool
  deriving DecidableEq, Repr

/-- The client state after construction: `self._uri`, `self._api_key`,
`self._ws` and `self._server_metadata`. -/
structure Client (α : Type) : Type where
  uri : String
  apiKey : Option String
  ws : Conn
  serverMetadata : α
  deriving DecidableEq, Repr

/-- Embeds `self._uri = f"ws://{host}"`, then `+= f":{port}"` when `port is
not None`. -/
def mkUri (host : String) (port : Option Nat) : String :=
  "ws://" ++ host ++ (match port with
    | none => ""
    | some p => ":" ++ toString p)

/-- The `headers` computed inside `_wait_for_server`:
`{"Authorization": f"Api-Key {self._api_key}"} if self._api_key else None`.
Python truthiness of `Optional[str]`: `None` and `""` are falsy. -/
def mkHeaders : Option String → Option (String × String)
  | none => none
  | some s => if s = "" then none else some ("Authorization", "Api-Key " ++ s)

/-- The argument tuple passed to `websockets.sync.client.connect` on each
attempt: the uri, `compression=None`, `max_size=None`, and the optional
`additional_headers`. -/
structure ConnectArgs : Type where
  uri : String
  compression : Option String
  maxSize : Option Nat
  additionalHeaders : Option (String × String)
  deriving DecidableEq, Repr

/-- The concrete call `websockets.sync.client.connect(self._uri,
compression=None, max_size=None, additional_headers=headers)` made from a
client configured with the given uri and api key. -/
def connectArgsOf (uri : String) (apiKey : Option String) : ConnectArgs :=
  { uri := uri, compression := none, maxSize := none,
    additionalHeaders := mkHeaders apiKey }

/-- Result of running the `_wait_for_server` loop against a finite list of
modelled attempts: the loop returns a connection and decoded metadata,
recording how many `connect` attempts were made and the list of `time.sleep`
delays taken; or it escapes with an uncaught exception; or the modelled
attempt list is exhausted with the loop still running (it retries forever
while refusals continue). -/
inductive WaitResult (α : Type) : Type
  | connected (ws : Conn) (metadata : α) (numAttempts : Nat) (delays : List Nat)
  | fatal (e : String) (numAttempts : Nat) (delays : List Nat)
  | stillWaiting (delays : List Nat)
  deriving DecidableEq, Repr

/-- Embeds `_wait_for_server`: `while True`, try the connect/recv/decode body;
on `ConnectionRefusedError` sleep 5 and retry; any other exception
propagates; on success return the connection and
`msgpack_numpy.unpackb(conn.recv())`. -/
def waitForServer {α : Type} (unpackb : List Nat → α) :
    List Attempt → WaitResult α
  | [] => .stillWaiting []
  | .refused :: rest =>
      match waitForServer unpackb rest with
      | .connected ws m n ds => .connected ws m (n + 1) (5 :: ds)
      | .fatal e n ds => .fatal e (n + 1) (5 :: ds)
      | .stillWaiting ds => .stillWaiting (5 :: ds)
  | .otherFailure e :: _ => .fatal e 1 []
  | .success cid b :: _ => .connected { id := cid, closed := false } (unpackb b) 1 []

/-- Result of `__init__`: a ready client, an escaped exception, or the
modelled attempts exhausted while the handshake loop is still retrying. -/
inductive InitResult (α : Type) : Type
  | ready (c : Client α)
  | fatalErr (e : String)
  | waiting
  deriving DecidableEq, Repr

/-- Embeds `__init__(host, port, api_key)`: build the uri, then
`self._ws, self._server_metadata = self._wait_for_server()`. -/
def mkClient {α : Type} (unpackb : List Nat → α) (host : String)
    (port : Option Nat) (apiKey : Option String) (attempts : List Attempt) :
    InitResult α :=
  match waitForServer unpackb attempts with
  | .connected ws m _ _ =>
      .ready { uri := mkUri host port, apiKey := apiKey, ws := ws,
               serverMetadata := m }
  | .fatal e _ _ => .fatalErr e
  | .stillWaiting _ => .waiting

/-- Embeds `get_server_metadata`: returns `self._server_metadata`. -/
def getServerMetadata {α : Type} (c : Client α) : α :=
  c.serverMetadata

/-- The message of the `RuntimeError` raised on a receive timeout:
`f"Timeout waiting for inference response (timeout={timeout}s)"`. -/
def timeoutMessage (t : Nat) : String :=
  "Timeout waiting for inference response (timeout=" ++ toString t ++ "s)"

/-- The message of the `RuntimeError` raised on a textual reply:
`f"Error in inference server:\n{response}"`. -/
def serverErrorMessage (s : String) : String :=
  "Error in inference server:\n" ++ s

/-- How one `infer` call ends: a decoded payload is returned; a
`RuntimeError` for a textual reply; a `RuntimeError` for a receive timeout;
or (`timeout=None` with no message ever arriving) the call blocks forever. -/
inductive InferResult (α : Type) : Type
  | ok (payload : α)
  | serverError (msg : String)
  | timeoutError (msg : String)
  | blocked
  deriving DecidableEq, Repr

/-- Embeds `infer(obs, timeout)`: `data = self._packer.pack(obs)`;
`self._ws.send(data)`; then `recv(timeout=timeout)` when a timeout is given,
else a plain blocking `recv()`; `TimeoutError` becomes a `RuntimeError`
naming the timeout; a `str` reply becomes a `RuntimeError` carrying the
text; a bytes reply is returned as `msgpack_numpy.unpackb(response)`.
The returned triple is the client state after the call, the list of
messages sent on the connection during the call, and the call's outcome. -/
def inferStep {α : Type} (pack : α → List Nat) (unpackb : List Nat → α)
    (c : Client α) (obs : α) (timeout : Option Nat) (recv : RecvOutcome) :
    Client α × List (List Nat) × InferResult α :=
  let data := pack obs
  match recv with
  | .timedOut =>
      match timeout with
      | some t => (c, [data], .timeoutError (timeoutMessage t))
      | none => (c, [data], .blocked)
  | .msg (.text s) => (c, [data], .serverError (serverErrorMessage s))
  | .msg (.binary b) => (c, [data], .ok (unpackb b))

/-- Embeds `reset`: `pass`. -/
def resetStep {α : Type} (c : Client α) : Client α :=
  c

/-- One client-facing operation after construction, together with the
transport behaviour it observes. -/
inductive Op (α : Type) : Type
  | inferOp (obs : α) (timeout : Option Nat) (recv : RecvOutcome)
  | resetOp

/-- The client state after one operation. -/
def stepOp {α : Type} (pack : α → List Nat) (unpackb : List Nat → α)
    (c : Client α) : Op α → Client α
  | .inferOp obs t r => (inferStep pack unpackb c obs t r).1
  | .resetOp => resetStep c

/-- The client state after a sequence of operations. -/
def runOps {α : Type} (pack : α → List Nat) (unpackb : List Nat → α)
    (c : Client α) (ops : List (Op α)) : Client α :=
  ops.foldl (stepOp pack unpackb) c

theorem runOps_fixed {α : Type} (pack : α → List Nat)
    (unpackb : List Nat → α) (c : Client α) (ops : List (Op α)) :
    runOps pack unpackb c ops = c := by
  induction ops with
  | nil => rfl
  | cons op rest ih =>
      cases op with
      | inferOp obs t r =>
          cases r with
          | timedOut =>
              cases t <;> simpa [runOps, stepOp, inferStep] using ih
          | msg m =>
              cases m <;> simpa [runOps, stepOp, inferStep] using ih
      | resetOp => simpa [runOps, stepOp, resetStep] using ih

theorem waitForServer_refused_then {α : Type} (unpackb : List Nat → α)
    (n : Nat) (rest : List Attempt) :
    (∀ cid b, waitForServer unpackb
        (List.replicate n .refused ++ .success cid b :: rest) =
        .connected { id := cid, closed := false } (unpackb b) (n + 1)
          (List.replicate n 5)) ∧
    (∀ e, waitForServer unpackb
        (List.replicate n .refused ++ .otherFailure e :: rest) =
        .fatal e (n + 1) (List.replicate n 5)) ∧
    waitForServer unpackb (List.replicate n (Attempt.refused)) =
        .stillWaiting (List.replicate n 5) := by
  induction n with
  | zero => exact ⟨fun cid b => rfl, fun e => rfl, rfl⟩
  | succ k ih =>
      refine ⟨fun cid b => ?_, fun e => ?_, ?_⟩
      · simp only [List.replicate_succ, List.cons_append, waitForServer,
          List.append_eq, ih.1 cid b]
      · simp only [List.replicate_succ, List.cons_append, waitForServer,
          List.append_eq, ih.2.1 e]
      · simp only [List.replicate_succ, waitForServer, ih.2.2]

/-- C1: for every request mapping, `infer(request, timeout)` sends on the
connection exactly one message whose bytes equal the codec encoding of the
request (`self._packer.pack(request)`); and if the next received reply is a
binary (bytes) message `b`, `infer` returns exactly the codec decoding of
`b` (`msgpack_numpy.unpackb(b)`). -/
theorem c1_infer_round_trip {α : Type} (pack : α → List Nat)
    (unpackb : List Nat → α) (c : Client α) (obs : α) (timeout : Option Nat) :
    (∀ recv, (inferStep pack unpackb c obs timeout recv).2.1 = [pack obs]) ∧
    (∀ b, inferStep pack unpackb c obs timeout (.msg (.binary b)) =
        (c, [pack obs], .ok (unpackb b))) := by
  constructor
  · intro recv
    cases recv with
    | timedOut => cases timeout <;> rfl
    | msg m => cases m <;> rfl
  · intro b
    rfl

/-- C2: for every `N ≥ 0`, if the connector raises connection-refused on the
first `N` attempts and succeeds on attempt `N + 1`, then `_wait_for_server`
returns the connection and decoded metadata after exactly `N + 1` connect
attempts with exactly `N` interleaved fixed delays of 5 time units; and on a
run of refusals alone the loop is still retrying — it never gives up. -/
theorem c2_handshake_retry {α : Type} (unpackb : List Nat → α) (n : Nat)
    (cid : Nat) (b : List Nat) (rest : List Attempt) :
    waitForServer unpackb
        (List.replicate n .refused ++ .success cid b :: rest) =
      .connected { id := cid, closed := false } (unpackb b) (n + 1)
        (List.replicate n 5) ∧
    waitForServer unpackb (List.replicate n (Attempt.refused)) =
      .stillWaiting (List.replicate n 5) :=
  ⟨(waitForServer_refused_then unpackb n rest).1 cid b,
   (waitForServer_refused_then unpackb n rest).2.2⟩

/-- C3 counterexample: when the received reply is the text
`"division by zero"`, the raised error's message is
`"Error in inference server:\ndivision by zero"`, which is not exactly the
received text. -/
theorem c3_message_not_exact :
    (inferStep (fun l : List Nat => l) (fun l => l)
        { uri := "ws://0.0.0.0", apiKey := none,
          ws := { id := 0, closed := false },
          serverMetadata := ([] : List Nat) }
        [] none (.msg (.text "division by zero"))).2.2 =
      .serverError "Error in inference server:\ndivision by zero" ∧
    "Error in inference server:\ndivision by zero" ≠ "division by zero" :=
  ⟨rfl, by decide⟩

/-- C3 (amended): for every call to `infer`, if the received reply is a
textual (string) message `s` rather than binary, `infer` fails with a
`ServerError` whose message is the fixed prefix
`"Error in inference server:\n"` followed by the received text `s` — the
message contains `s` verbatim but is not exactly `s`. -/
theorem c3_server_error_text {α : Type} (pack : α → List Nat)
    (unpackb : List Nat → α) (c : Client α) (obs : α) (timeout : Option Nat)
    (s : String) :
    inferStep pack unpackb c obs timeout (.msg (.text s)) =
      (c, [pack obs],
        .serverError ("Error in inference server:\n" ++ s)) ∧
    (∃ p, serverErrorMessage s = p ++ s) :=
  ⟨rfl, ⟨"Error in inference server:\n", rfl⟩⟩

/-- C4: for every call `infer(request, timeout)` with the timeout set to a
value `t`, if no reply arrives within `t` then `infer` fails with a timeout
error whose message includes the configured duration `t`, and no payload
mapping is returned by the call. -/
theorem c4_timeout_error {α : Type} (pack : α → List Nat)
    (unpackb : List Nat → α) (c : Client α) (obs : α) (t : Nat) :
    inferStep pack unpackb c obs (some t) .timedOut =
      (c, [pack obs], .timeoutError (timeoutMessage t)) ∧
    (∃ p q, timeoutMessage t = p ++ toString t ++ q) ∧
    ∀ payload,
      (inferStep pack unpackb c obs (some t) .timedOut).2.2 ≠ .ok payload :=
  ⟨rfl,
   ⟨"Timeout waiting for inference response (timeout=", "s)", rfl⟩,
   fun _ h => InferResult.noConfusion h⟩

/-- C5: in the handshake loop, only a connection-refused failure triggers a
retry; any other failure raised while connecting or while receiving /
decoding the metadata message escapes to the caller at once — the result is
fatal with that error after exactly the refused attempts plus one, no
further delay is taken, and any later attempts are never consulted. -/
theorem c5_other_failure_fatal {α : Type} (unpackb : List Nat → α) (k : Nat)
    (e : String) (rest : List Attempt) :
    waitForServer unpackb
        (List.replicate k .refused ++ .otherFailure e :: rest) =
      .fatal e (k + 1) (List.replicate k 5) :=
  (waitForServer_refused_then unpackb k rest).2.1 e

/-- C6: for every call to `infer` from the ready state, whatever the outcome
(binary success, textual server error, timeout, or a blocking receive), the
client state after the call equals the state before it — the connection
handle, the stored metadata, the uri and the api key are unchanged, and the
connection's closed flag is untouched. -/
theorem c6_infer_frame {α : Type} (pack : α → List Nat)
    (unpackb : List Nat → α) (c : Client α) (obs : α) (timeout : Option Nat)
    (recv : RecvOutcome) :
    (inferStep pack unpackb c obs timeout recv).1 = c ∧
    (inferStep pack unpackb c obs timeout recv).1.ws = c.ws ∧
    (inferStep pack unpackb c obs timeout recv).1.serverMetadata =
      c.serverMetadata ∧
    (inferStep pack unpackb c obs timeout recv).1.uri = c.uri ∧
    (inferStep pack unpackb c obs timeout recv).1.apiKey = c.apiKey ∧
    (inferStep pack unpackb c obs timeout recv).1.ws.closed = c.ws.closed := by
  have h : (inferStep pack unpackb c obs timeout recv).1 = c := by
    cases recv with
    | timedOut => cases timeout <;> rfl
    | msg m => cases m <;> rfl
  exact ⟨h, by rw [h], by rw [h], by rw [h], by rw [h], by rw [h]⟩

/-- C7: construction with a connector whose first successful attempt yields
the metadata bytes `b` produces a ready client whose stored metadata is the
decoding of that single first message, and `get_server_metadata` returns
that same mapping after any sequence of later operations, with no failure
mode and no state change. -/
theorem c7_metadata_capture {α : Type} (unpackb : List Nat → α)
    (host : String) (port : Option Nat) (key : Option String) (n : Nat)
    (cid : Nat) (b : List Nat) (rest : List Attempt) :
    mkClient unpackb host port key
        (List.replicate n .refused ++ .success cid b :: rest) =
      .ready { uri := mkUri host port, apiKey := key,
               ws := { id := cid, closed := false },
               serverMetadata := unpackb b } ∧
    ∀ (pack : α → List Nat) (ops : List (Op α)),
      getServerMetadata (runOps pack unpackb
          { uri := mkUri host port, apiKey := key,
            ws := { id := cid, closed := false },
            serverMetadata := unpackb b } ops) = unpackb b := by
  constructor
  · unfold mkClient
    rw [(waitForServer_refused_then unpackb n rest).1 cid b]
  · intro pack ops
    rw [runOps_fixed]
    rfl

/-- C8: for every host string and every optional port, the connection
target is the insecure scheme `ws://` followed by the host, with `:` and
the port appended exactly when a port is provided. -/
theorem c8_uri_format (host : String) (p : Nat) :
    mkUri host none = "ws://" ++ host ∧
    mkUri host (some p) = "ws://" ++ host ++ ":" ++ toString p := by
  constructor
  · simp [mkUri]
  · simp [mkUri, String.append_assoc]

/-- C9: `reset` is a no-op — any number of resets, at any point after
construction, leaves the client state (metadata and connection identity
included) unchanged, and the outcome of any subsequent `infer` call is
unaffected. -/
theorem c9_reset_noop {α : Type} (pack : α → List Nat)
    (unpackb : List Nat → α) (c : Client α) (n : Nat) (obs : α)
    (timeout : Option Nat) (recv : RecvOutcome) :
    resetStep c = c ∧
    runOps pack unpackb c (List.replicate n (Op.resetOp)) = c ∧
    getServerMetadata (resetStep c) = getServerMetadata c ∧
    inferStep pack unpackb (resetStep c) obs timeout recv =
      inferStep pack unpackb c obs timeout recv :=
  ⟨rfl, runOps_fixed pack unpackb c _, rfl, rfl⟩

/-- C10: an `Authorization` header of the form `Api-Key <key>` is passed to
`connect` exactly when the configured api key is truthy; constructing with
the empty-string api key passes the very same `connect` arguments as
constructing with no api key at all. -/
theorem c10_api_key_header (uri : String) (k : String) :
    (k ≠ "" → connectArgsOf uri (some k) =
      { uri := uri, compression := none, maxSize := none,
        additionalHeaders := some ("Authorization", "Api-Key " ++ k) }) ∧
    connectArgsOf uri (some "") = connectArgsOf uri none ∧
    (connectArgsOf uri none).additionalHeaders = none := by
  refine ⟨fun h => ?_, ?_, rfl⟩
  · simp [connectArgsOf, mkHeaders, h]
  · simp [connectArgsOf, mkHeaders]

/-- Witness for C10 at a concrete key. -/
theorem c10_api_key_header_witness :
    connectArgsOf "ws://0.0.0.0:8000" (some "secret") =
      { uri := "ws://0.0.0.0:8000", compression := none, maxSize := none,
        additionalHeaders := some ("Authorization", "Api-Key " ++ "secret") } :=
  (c10_api_key_header "ws://0.0.0.0:8000" "secret").1 (by decide)

end OpenpiClient
